import Mathlib

/-!
Verification of the mchart repository: a shallow embedding, in Lean 4, of the
chart data model (`src/mchart/models.py`), the Billboard chart-name resolution
(`src/mchart/providers/billboard.py`), the row-level field-extraction engine of
the Scrapy spider (`src/mchart/spiders/billboard.py`), and the assembly
pipeline (`src/mchart/pipelines.py`), together with theorems settling the
frozen specification claims.

Python strings are modelled as Lean `String`; every Python string operation
used by the code (`strip`, `lower`, `upper`, `replace`, `split`, `isdigit`,
`in`, `startswith`, whitespace collapsing) is re-implemented here by structural
recursion on the character list, so that all definitions evaluate inside the
kernel.
-/

/-! ## Python string primitives -/

/-- Model of Python `str.strip()`: drop whitespace from both ends. -/
def pyStrip (s : String) : String :=
  ⟨((s.data.dropWhile Char.isWhitespace).reverse.dropWhile Char.isWhitespace).reverse⟩

/-- Model of Python `str.lower()` (ASCII case folding). -/
def pyLower (s : String) : String :=
  ⟨s.data.map Char.toLower⟩

/-- Model of Python `str.upper()` (ASCII case folding). -/
def pyUpper (s : String) : String :=
  ⟨s.data.map Char.toUpper⟩

/-- Model of Python `str.replace(old, new)` for a one-character pattern,
which is how the source always calls it. -/
def pyReplaceChar (old new : Char) (s : String) : String :=
  ⟨s.data.map (fun c => if c == old then new else c)⟩

/-- Model of Python `str.isdigit()`: non-empty and all characters digits. -/
def isDigitToken (s : String) : Bool :=
  !s.data.isEmpty && s.data.all Char.isDigit

/-- Numeric value of a digit string, as computed by Python `int(...)` on a
string of decimal digits. -/
def natOfDigits (cs : List Char) : Nat :=
  cs.foldl (fun n c => n * 10 + (c.toNat - 48)) 0

/-- Does `pat` occur as a prefix-at-some-position of `l`?  Model of Python
substring membership `pat in s`. -/
def listHasInfix (pat : List Char) : List Char → Bool
  | [] => pat.isEmpty
  | c :: rest => pat.isPrefixOf (c :: rest) || listHasInfix pat rest

/-- Model of Python `pat in s` (substring containment). -/
def strContainsSub (s pat : String) : Bool :=
  listHasInfix pat.data s.data

/-- Model of Python `s.startswith(pre)`. -/
def pyStartsWith (pre s : String) : Bool :=
  pre.data.isPrefixOf s.data

/-- Model of Python `str.split(sep)` for a one-character separator: split at
every occurrence, keeping empty pieces. -/
def pySplit (sep : Char) : List Char → List (List Char)
  | [] => [[]]
  | c :: rest =>
    let ps := pySplit sep rest
    if c == sep then [] :: ps
    else (c :: ps.headD []) :: ps.tail

/-- `str.split` lifted to `String`. -/
def pySplitStr (sep : Char) (s : String) : List String :=
  (pySplit sep s.data).map (fun cs => ⟨cs⟩)

/-- Collapse every whitespace run to a single space
(the effect of the source regex substitution of whitespace-runs). -/
def collapseWsAux : Bool → List Char → List Char
  | _, [] => []
  | inRun, c :: cs =>
    if c.isWhitespace then
      if inRun then collapseWsAux true cs else ' ' :: collapseWsAux true cs
    else c :: collapseWsAux false cs

/-- Model of the source normalization on span text: collapse internal
whitespace runs to one space, then strip. -/
def pyNormWs (s : String) : String :=
  pyStrip ⟨collapseWsAux false s.data⟩

/-- Model of Python `" ".join(parts)`. -/
def joinSpaceChars : List String → List Char
  | [] => []
  | [p] => p.data
  | p :: rest => p.data ++ ' ' :: joinSpaceChars rest

/-- `" ".join(parts)` as a `String`. -/
def pyJoinSpace (parts : List String) : String :=
  ⟨joinSpaceChars parts⟩

/-- A single-quote character, used when rebuilding the exact Python message
strings (which quote identifiers). -/
def squote : String :=
  ⟨[Char.ofNat 39]⟩

/-! ## Data model (`src/mchart/models.py`) -/

/-- `Song` (models.py): title, primary artist, artist list, cover image URL,
album name. -/
structure Song where
  title : String
  artist : String
  artists : List String
  image : String
  album : String
  deriving DecidableEq

/-- `Album` (models.py): like `Song` but with no album field. -/
structure Album where
  title : String
  artist : String
  artists : List String
  image : String
  deriving DecidableEq

/-- `ChartEntry` (models.py): optional song, optional album, rank and the
history fields.  Pydantic `int` fields are modelled as `Int`. -/
structure ChartEntry where
  song : Option Song
  album : Option Album
  rank : Int
  weeksOnChart : Int
  lastWeek : Int
  peakPosition : Int
  deriving DecidableEq

/-- Error message raised by `validate_song_or_album` when both fields are
unset. -/
def msgNeither : String :=
  "ChartEntry must have either " ++ squote ++ "song" ++ squote ++ " or " ++
    squote ++ "album" ++ squote ++ " field"

/-- Error message raised by `validate_song_or_album` when both fields are
set. -/
def msgBoth : String :=
  "ChartEntry cannot have both " ++ squote ++ "song" ++ squote ++ " and " ++
    squote ++ "album" ++ squote ++ " fields"

/-- `ChartEntry.validate_song_or_album` (models.py lines 94-101): fail if
neither or both of song/album are set, else return the entry.  A raised
`ValueError` is modelled as `Except.error`. -/
def ChartEntry.validateSongOrAlbum (e : ChartEntry) : Except String ChartEntry :=
  if e.song.isNone ∧ e.album.isNone then .error msgNeither
  else if e.song.isSome ∧ e.album.isSome then .error msgBoth
  else .ok e

/-- Constructing a `ChartEntry` through Pydantic runs the model validator
after the fields are assigned. -/
def mkChartEntry (song : Option Song) (album : Option Album)
    (rank weeksOnChart lastWeek peakPosition : Int) : Except String ChartEntry :=
  ChartEntry.validateSongOrAlbum
    ⟨song, album, rank, weeksOnChart, lastWeek, peakPosition⟩

/-- `ChartMetadata` (models.py).  The `type` Literal is modelled as a plain
string (the code only ever passes "single" or "album"). -/
structure ChartMetadata where
  provider : String
  title : String
  description : String
  url : String
  type : String
  deriving DecidableEq

/-- A calendar date, modelling Python `datetime.date` (year 1-9999). -/
structure PyDate where
  year : Nat
  month : Nat
  day : Nat
  deriving DecidableEq

/-- The invariant CPython enforces on every constructed `datetime.date`
(month bound 1-12, day bound at most 31). -/
def PyDate.valid (d : PyDate) : Prop :=
  1 ≤ d.year ∧ d.year ≤ 9999 ∧ 1 ≤ d.month ∧ d.month ≤ 12 ∧ 1 ≤ d.day ∧ d.day ≤ 31

instance (d : PyDate) : Decidable d.valid := by
  unfold PyDate.valid
  infer_instance

/-- `Chart` (models.py): metadata, publication date, entries, chart type. -/
structure Chart where
  metadata : ChartMetadata
  publishedDate : PyDate
  entries : List ChartEntry
  chartType : String
  deriving DecidableEq

/-- The decimal digit character for `n % 10`-style values. -/
def digitChar (n : Nat) : Char :=
  Char.ofNat (48 + n)

/-- Fixed-width 4-digit decimal print of `n ≤ 9999` (Python `%04d`). -/
def pad4 (n : Nat) : List Char :=
  [digitChar (n / 1000 % 10), digitChar (n / 100 % 10),
   digitChar (n / 10 % 10), digitChar (n % 10)]

/-- Fixed-width 2-digit decimal print of `n ≤ 99` (Python `%02d`). -/
def pad2 (n : Nat) : List Char :=
  [digitChar (n / 10 % 10), digitChar (n % 10)]

/-- Model of CPython `date.isoformat()`: the string `YYYY-MM-DD` with
zero-padded fields (exact for every valid `datetime.date`). -/
def PyDate.isoformat (d : PyDate) : String :=
  ⟨pad4 d.year ++ '-' :: (pad2 d.month ++ '-' :: pad2 d.day)⟩

/-- Model of CPython `date.fromisoformat` on the `YYYY-MM-DD` form: ten
characters, digits in the date positions, dashes between, and the resulting
fields inside the ranges `date` accepts. -/
def pyDateFromIsoformat (s : String) : Option PyDate :=
  match s.data with
  | [y1, y2, y3, y4, h1, m1, m2, h2, d1, d2] =>
    if y1.isDigit ∧ y2.isDigit ∧ y3.isDigit ∧ y4.isDigit ∧ h1 = '-' ∧
        m1.isDigit ∧ m2.isDigit ∧ h2 = '-' ∧ d1.isDigit ∧ d2.isDigit then
      let y := natOfDigits [y1, y2, y3, y4]
      let m := natOfDigits [m1, m2]
      let d := natOfDigits [d1, d2]
      if 1 ≤ y ∧ y ≤ 9999 ∧ 1 ≤ m ∧ m ≤ 12 ∧ 1 ≤ d ∧ d ≤ 31 then
        some ⟨y, m, d⟩
      else none
    else none
  | _ => none

/-- The serialized form produced by `Chart.to_dict` (models.py lines
172-183): everything as in the model, except the publication date becomes an
ISO string and entries are serialized with `exclude_none` (an unset
song/album is omitted, which the `Option` already captures). -/
structure ChartDict where
  metadata : ChartMetadata
  publishedDate : String
  entries : List ChartEntry
  chartType : String
  deriving DecidableEq

/-- `Chart.to_dict` (models.py lines 172-183). -/
def Chart.toDict (c : Chart) : ChartDict :=
  ⟨c.metadata, c.publishedDate.isoformat, c.entries, c.chartType⟩

/-! ## Theorems: claim C1 -/

/-- C1: constructing (validating) a `ChartEntry` with neither or both of
song/album always fails, with exactly one always succeeds, and every
successfully constructed entry satisfies `has(song) XOR has(album)`. -/
theorem chartEntry_xor_song_album (s : Option Song) (a : Option Album)
    (r w l p : Int) :
    ((mkChartEntry s a r w l p).isOk = Bool.xor s.isSome a.isSome) ∧
      (∀ e, mkChartEntry s a r w l p = .ok e →
        Bool.xor e.song.isSome e.album.isSome = true) := by
  refine ⟨?_, fun e he => ?_⟩
  · cases s <;> cases a <;>
      simp [mkChartEntry, ChartEntry.validateSongOrAlbum, Except.isOk, Except.toBool]
  · cases s <;> cases a <;>
      simp only [mkChartEntry, ChartEntry.validateSongOrAlbum] at he <;>
      simp_all <;> simp [← he]

/-- C1 witness: a concrete entry with only the song set validates, and the
theorem applies to it. -/
theorem chartEntry_xor_song_album_witness :
    (mkChartEntry (some ⟨"Anti-Hero", "Taylor Swift", ["Taylor Swift"], "", "Midnights"⟩)
      none 1 5 2 1).isOk = true := by
  have h := (chartEntry_xor_song_album
    (some ⟨"Anti-Hero", "Taylor Swift", ["Taylor Swift"], "", "Midnights"⟩)
    none 1 5 2 1).1
  simpa using h

/-! ## Row model for the Scrapy spider (`src/mchart/spiders/billboard.py`)

A chart row is modelled as the data the spider's selectors return from the
markup: the `span.c-label` elements (their text nodes, and whether the span
sits inside a hyperlink), the `h3.c-title` text, the hyperlinks (href and
text nodes), the first image element's attributes, the row's raw HTML
(`row.get()`) and all of the row's text nodes (`row.css("::text")`). -/

/-- One `span.c-label` element: its text nodes in document order, and whether
it has an `a` ancestor. -/
structure CSpan where
  texts : List String
  inLink : Bool
  deriving DecidableEq

/-- One hyperlink in the row: its `href` attribute and its text nodes. -/
structure CLink where
  href : String
  texts : List String
  deriving DecidableEq

/-- A row-like markup fragment, as seen by the spider's selectors. -/
structure ChartRow where
  spans : List CSpan
  titleText : Option String
  links : List CLink
  img : Option (List (String × String))
  rawHtml : String
  allTexts : List String
  deriving DecidableEq

/-- `BillboardSpider._extract_rank`: scan the text of the `c-label` spans for
the first stripped pure-digit token; its value, else 0. -/
def extractRank (row : ChartRow) : Nat :=
  match (row.spans.flatMap CSpan.texts).find? (fun t => isDigitToken (pyStrip t)) with
  | some t => natOfDigits (pyStrip t).data
  | none => 0

/-- `BillboardSpider._extract_title`: stripped text of the `h3.c-title`
element, empty if absent. -/
def extractTitle (row : ChartRow) : String :=
  match row.titleText with
  | some t => pyStrip t
  | none => ""

/-- Method 1 of `BillboardSpider._extract_artist`: accumulate (joined by
" & ") the text of every link whose href contains "/artist/" and whose
stripped text is non-empty; on single charts the text must also differ from
the title. -/
def artistFromLinks (links : List CLink) (title : String) (isAlbumChart : Bool) : String :=
  links.foldl
    (fun artist link =>
      let text :=
        match link.texts.head? with
        | some s => pyStrip s
        | none => ""
      if strContainsSub link.href "/artist/" = true ∧ text ≠ "" then
        if isAlbumChart then
          if artist = "" then text else artist ++ " & " ++ text
        else
          if text ≠ title then
            if artist = "" then text else artist ++ " & " ++ text
          else artist
      else artist)
    ""

/-- The fixed exclusion set of status markers in artist method 2. -/
def excludedMarker (u : String) : Bool :=
  u == "NEW" || u == "RE-ENTRY" || u == "RE-\nENTRY" || u == "-" || u == ""

/-- Method 2 of `BillboardSpider._extract_artist`: scan the `c-label` spans;
normalize whitespace; keep a candidate that is non-empty, non-digit, differs
from the title, has length strictly between 2 and 150 and is not a status
marker; a candidate inside a link wins immediately (break), otherwise the
first candidate containing "&" or "," or longer than 8 or starting with an
uppercase letter is kept. -/
def artistFromSpans (title : String) : List CSpan → String → String
  | [], artist => artist
  | s :: rest, artist =>
    match s.texts.head? with
    | none => artistFromSpans title rest artist
    | some t0 =>
      let text := pyNormWs t0
      if text ≠ "" ∧ isDigitToken text = false ∧ text ≠ title ∧
          2 < text.data.length ∧ text.data.length < 150 then
        if excludedMarker (pyStrip (pyUpper text)) then
          artistFromSpans title rest artist
        else if s.inLink then text
        else if strContainsSub text "&" = true ∨ strContainsSub text "," = true ∨
            8 < text.data.length ∨ (text.data.headD ' ').isUpper = true then
          artistFromSpans title rest (if artist = "" then text else artist)
        else artistFromSpans title rest artist
      else artistFromSpans title rest artist

/-- `BillboardSpider._extract_artist`: links first, spans only if the links
yielded nothing. -/
def extractArtist (row : ChartRow) (title : String) (isAlbumChart : Bool) : String :=
  let artist := artistFromLinks row.links title isAlbumChart
  if artist = "" then artistFromSpans title row.spans "" else artist

/-- `BillboardSpider._split_artists`: split on "&" if present, else on ",",
else a single-element list; pieces are stripped. -/
def splitArtists (artist : String) : List String :=
  if strContainsSub artist "&" = true then (pySplitStr '&' artist).map pyStrip
  else if strContainsSub artist "," = true then (pySplitStr ',' artist).map pyStrip
  else [artist]

/-- The attribute priority loop of `BillboardSpider._extract_image`. -/
def imageFromAttrs (attrs : List (String × String)) : List String → String
  | [] => ""
  | a :: rest =>
    let url := (attrs.lookup a).getD ""
    if url ≠ "" ∧ strContainsSub url "lazyload-fallback" = false ∧
        pyStartsWith "http" url = true then url
    else imageFromAttrs attrs rest

/-- `BillboardSpider._extract_image`: first image element's attributes,
scanned in the fixed priority order, accepting an absolute non-placeholder
URL. -/
def extractImage (row : ChartRow) : String :=
  match row.img with
  | none => ""
  | some attrs =>
    imageFromAttrs attrs ["data-lazy-src", "data-src", "data-original", "src"]

/-- Case-insensitive literal prefix match; the pattern is given lowercase. -/
def ciPrefix : List Char → List Char → Bool
  | [], _ => true
  | _ :: _, [] => false
  | p :: ps, c :: cs => p == c.toLower && ciPrefix ps cs

/-- Try to match the regex `(\d+)\s+week` (case-insensitively) at the head of
the character list, returning the captured number. -/
def matchWeeksAt (cs : List Char) : Option Nat :=
  let ds := cs.takeWhile Char.isDigit
  let rest := cs.dropWhile Char.isDigit
  if ds.isEmpty then none
  else
    let ws := rest.takeWhile Char.isWhitespace
    let rest2 := rest.dropWhile Char.isWhitespace
    if ws.isEmpty then none
    else if ciPrefix ['w', 'e', 'e', 'k'] rest2 then some (natOfDigits ds)
    else none

/-- Model of `re.search`: try the head matcher at every position, leftmost
match wins. -/
def scanFor (f : List Char → Option Nat) : List Char → Option Nat
  | [] => f []
  | c :: cs =>
    match f (c :: cs) with
    | some n => some n
    | none => scanFor f cs

/-- `BillboardSpider._extract_weeks`: first `(\d+)\s+weeks?` match in the
row's raw HTML, default 0. -/
def extractWeeks (row : ChartRow) : Nat :=
  (scanFor matchWeeksAt row.rawHtml.data).getD 0

/-- Try to match `label[:\s]*(\d+)` (case-insensitive label) at the head of
the character list. -/
def matchLabelNumAt (label : List Char) (cs : List Char) : Option Nat :=
  if ciPrefix label cs then
    let rest := (cs.drop label.length).dropWhile (fun c => c == ':' || c.isWhitespace)
    let ds := rest.takeWhile Char.isDigit
    if ds.isEmpty then none else some (natOfDigits ds)
  else none

/-- `BillboardSpider._extract_last_week`: first `LW[:\s]*(\d+)` match in the
joined row text, default 0. -/
def extractLastWeek (row : ChartRow) : Nat :=
  (scanFor (matchLabelNumAt ['l', 'w']) (pyJoinSpace row.allTexts).data).getD 0

/-- `BillboardSpider._extract_peak`: first `Peak[:\s]*(\d+)` match in the
joined row text, defaulting to the row's own rank. -/
def extractPeak (row : ChartRow) (currentRank : Nat) : Nat :=
  (scanFor (matchLabelNumAt ['p', 'e', 'a', 'k']) (pyJoinSpace row.allTexts).data).getD
    currentRank

/-- The raw record dict produced by the spider for one successfully parsed
row. -/
structure RawEntry where
  rank : Nat
  title : String
  artist : String
  artists : List String
  image : String
  weeksOnChart : Nat
  lastWeek : Nat
  peakPosition : Nat
  entryType : String
  deriving DecidableEq

/-- `BillboardSpider._parse_single_row`: discard the row on rank 0, empty
title or empty artist; otherwise build the raw record (image only when
enabled; the primary artist is the first element of the split list). -/
def parseSingleRow (includeImages : Bool) (row : ChartRow) : Option RawEntry :=
  if extractRank row = 0 then none
  else if extractTitle row = "" then none
  else if extractArtist row (extractTitle row) false = "" then none
  else
    some
      { rank := extractRank row
        title := extractTitle row
        artist := (splitArtists (extractArtist row (extractTitle row) false)).headD
          (extractArtist row (extractTitle row) false)
        artists := splitArtists (extractArtist row (extractTitle row) false)
        image := if includeImages then extractImage row else ""
        weeksOnChart := extractWeeks row
        lastWeek := extractLastWeek row
        peakPosition := extractPeak row (extractRank row)
        entryType := "song" }

/-- The Python truthiness test `max_chart_entries and len(entries) >= max`:
`None` and `0` are falsy. -/
def maxReached : Option Nat → Nat → Bool
  | none, _ => false
  | some k, n => !(k == 0) && decide (k ≤ n)

/-- The row loop of `BillboardSpider._parse_entries`: append each parsed row
and break as soon as the configured maximum is reached. -/
def collectRows (includeImages : Bool) (maxEntries : Option Nat) :
    List ChartRow → List RawEntry → List RawEntry
  | [], acc => acc
  | r :: rs, acc =>
    match parseSingleRow includeImages r with
    | none => collectRows includeImages maxEntries rs acc
    | some e =>
      let acc2 := acc ++ [e]
      if maxReached maxEntries acc2.length then acc2
      else collectRows includeImages maxEntries rs acc2

/-- Rank order on raw records, the key function of `entries.sort`. -/
def rawRankLe (a b : RawEntry) : Prop :=
  a.rank ≤ b.rank

instance : DecidableRel rawRankLe :=
  fun a b => Nat.decLe a.rank b.rank

instance : IsTotal RawEntry rawRankLe :=
  ⟨fun a b => Nat.le_total a.rank b.rank⟩

instance : IsTrans RawEntry rawRankLe :=
  ⟨fun _ _ _ => Nat.le_trans⟩

/-- `BillboardSpider._parse_entries`: collect rows (with the maximum cut),
then stable-sort by rank.  Python `list.sort` is a stable sort; it is
modelled by the stable `List.insertionSort`. -/
def spiderParseEntries (includeImages : Bool) (maxEntries : Option Nat)
    (rows : List ChartRow) : List RawEntry :=
  List.insertionSort rawRankLe (collectRows includeImages maxEntries rows [])

/-! ## Assembly pipeline (`src/mchart/pipelines.py`) -/

/-- `ChartPageItem` (items.py): page metadata plus the raw records. -/
structure ChartPageItem where
  provider : String
  chartName : String
  chartTitle : String
  chartType : String
  description : String
  url : String
  publishedDate : PyDate
  entries : List RawEntry
  deriving DecidableEq

/-- Convert one raw record into a validated `ChartEntry`
(`ChartAssemblyPipeline.process_item`, per-record body). -/
def convertRawEntry (raw : RawEntry) : Except String ChartEntry :=
  let artists := raw.artists
  if raw.entryType == "album" then
    mkChartEntry none
      (some ⟨raw.title, artists.headD raw.artist, artists, raw.image⟩)
      raw.rank raw.weeksOnChart raw.lastWeek raw.peakPosition
  else
    mkChartEntry
      (some ⟨raw.title, artists.headD raw.artist, artists, raw.image, ""⟩)
      none raw.rank raw.weeksOnChart raw.lastWeek raw.peakPosition

/-- Rank order on validated entries, the key function of the pipeline's
`entries.sort`. -/
def entryRankLe (a b : ChartEntry) : Prop :=
  a.rank ≤ b.rank

instance : DecidableRel entryRankLe :=
  fun a b => Int.decLe a.rank b.rank

instance : IsTotal ChartEntry entryRankLe :=
  ⟨fun a b => Int.le_total a.rank b.rank⟩

instance : IsTrans ChartEntry entryRankLe :=
  ⟨fun _ _ _ => le_trans⟩

/-- `ChartAssemblyPipeline.process_item` (pipelines.py lines 13-72): convert
every raw record, sort ascending by rank (stable), and build the `Chart`. -/
def processItem (item : ChartPageItem) : Except String Chart := do
  let entries ← item.entries.mapM convertRawEntry
  let sorted := List.insertionSort entryRankLe entries
  return { metadata :=
             ⟨item.provider, item.chartTitle, item.description, item.url,
              item.chartType⟩
           publishedDate := item.publishedDate
           entries := sorted
           chartType := item.chartType }

/-! ## Chart-name resolution (`BillboardProvider._normalize_chart_name`) -/

/-- The keys of `CHART_URLS`, the canonical chart table. -/
def validCharts : List String :=
  ["hot-100", "billboard-200", "global-200", "artist-100",
   "streaming-songs", "radio-songs", "digital-song-sales"]

/-- The colloquial alias map (`fallback_map` in the source). -/
def aliasMap : List (String × String) :=
  [("hot 100", "hot-100"), ("billboard hot 100", "hot-100"),
   ("200", "billboard-200"), ("billboard 200", "billboard-200"),
   ("global", "global-200"), ("artist", "artist-100")]

/-- Python `str(list_of_keys)`: comma-separated single-quoted items. -/
def quotedList : List String → String
  | [] => ""
  | [s] => squote ++ s ++ squote
  | s :: rest => squote ++ s ++ squote ++ ", " ++ quotedList rest

/-- The `list(self.CHART_URLS.keys())` rendering used in the error
message. -/
def availableRepr : String :=
  "[" ++ quotedList validCharts ++ "]"

/-- The warning emitted when falling back to the default chart. -/
def fallbackWarning (chartName : String) : String :=
  "Chart " ++ squote ++ chartName ++ squote ++ " not found, falling back to hot-100"

/-- The `ValueError` message for an unknown chart without fallback. -/
def unknownChartMsg (chartName : String) : String :=
  "Unknown chart: " ++ chartName ++ ". Available: " ++ availableRepr

/-- `BillboardProvider._normalize_chart_name` (billboard.py lines 103-139):
lowercase and strip; direct table lookup; retry with spaces/underscores
replaced by hyphens; alias map; then either warn and fall back to "hot-100"
or raise.  The result is the list of emitted warnings paired with the
outcome. -/
def normalizeChartName (fallbackToDefault : Bool) (chartName : String) :
    List String × Except String String :=
  let nameLower := pyStrip (pyLower chartName)
  if validCharts.contains nameLower then ([], .ok nameLower)
  else
    let normalized := pyReplaceChar '_' '-' (pyReplaceChar ' ' '-' nameLower)
    if validCharts.contains normalized then ([], .ok normalized)
    else
      match aliasMap.lookup nameLower with
      | some v => ([], .ok v)
      | none =>
        if fallbackToDefault then ([fallbackWarning chartName], .ok "hot-100")
        else ([], .error (unknownChartMsg chartName))

/-! ## `BillboardProvider.get_latest`, after the fetch (billboard.py 375-433)

The network fetch itself is outside the embedding; what is modelled is the
code path from parsed data to the returned `Chart`: the source builds
`ChartMetadata` and `Chart` directly from whatever `_parse_entries` returned
and performs no emptiness check on the entries. -/

/-- Tail of `BillboardProvider.get_latest`: assemble the result chart from
the parsed entries and page metadata.  `ChartMetadata.type` and
`Chart.chart_type` keep their defaults ("single") exactly as in the
source. -/
def getLatestAssemble (chartName : String) (publishedDate : PyDate)
    (entries : List ChartEntry) (description url : String) :
    Except String Chart :=
  .ok { metadata := ⟨"billboard", chartName, description, url, "single"⟩
        publishedDate := publishedDate
        entries := entries
        chartType := "single" }

/-! ## Concrete inputs used by witnesses and counterexample computations -/

/-- A well-formed demo row: rank 5, title "Song A", artist link. -/
def demoRowA : ChartRow :=
  { spans := [⟨["5"], false⟩]
    titleText := some "Song A"
    links := [⟨"/artist/artist-x", ["Artist X"]⟩]
    img := none
    rawHtml := ""
    allTexts := [] }

/-- A well-formed demo row: rank 3, title "Song B", artist link. -/
def demoRowB : ChartRow :=
  { spans := [⟨["3"], false⟩]
    titleText := some "Song B"
    links := [⟨"/artist/artist-y", ["Artist Y"]⟩]
    img := none
    rawHtml := ""
    allTexts := [] }

/-- A demo page whose rows appear in document order rank 5 then rank 3. -/
def demoRows : List ChartRow :=
  [demoRowA, demoRowB]

/-- The raw record the spider produces for `demoRowA`. -/
def demoEntryA : RawEntry :=
  ⟨5, "Song A", "Artist X", ["Artist X"], "", 0, 0, 5, "song"⟩

/-- A row with no pure-digit label token (only a "NEW" marker). -/
def rowNoRank : ChartRow :=
  { spans := [⟨["NEW"], false⟩]
    titleText := some "Song C"
    links := [⟨"/artist/artist-z", ["Artist Z"]⟩]
    img := none
    rawHtml := ""
    allTexts := [] }

/-! ## Helper lemmas about the row parser and the collection loop -/

/-- Inversion of `parseSingleRow`: how each field of a successfully parsed
record is computed. -/
theorem parseSingleRow_inv {inc : Bool} {row : ChartRow} {e : RawEntry}
    (h : parseSingleRow inc row = some e) :
    extractRank row ≠ 0 ∧ e.rank = extractRank row ∧
      e.image = (if inc then extractImage row else "") ∧
      e.artists = splitArtists (extractArtist row (extractTitle row) false) ∧
      e.artist = e.artists.headD (extractArtist row (extractTitle row) false) := by
  rw [parseSingleRow] at h
  by_cases h0 : extractRank row = 0
  · rw [if_pos h0] at h
    exact absurd h (by simp)
  · rw [if_neg h0] at h
    by_cases h1 : extractTitle row = ""
    · rw [if_pos h1] at h
      exact absurd h (by simp)
    · rw [if_neg h1] at h
      by_cases h2 : extractArtist row (extractTitle row) false = ""
      · rw [if_pos h2] at h
        exact absurd h (by simp)
      · rw [if_neg h2] at h
        obtain rfl := Option.some.inj h
        exact ⟨h0, rfl, rfl, rfl, rfl⟩

/-- Every record in the collection loop's output comes from the accumulator
or from a successfully parsed row. -/
theorem mem_collectRows {inc : Bool} {m : Option Nat} :
    ∀ {rows : List ChartRow} {acc : List RawEntry} {e : RawEntry},
      e ∈ collectRows inc m rows acc →
      e ∈ acc ∨ ∃ r ∈ rows, parseSingleRow inc r = some e := by
  intro rows
  induction rows with
  | nil => intro acc e h; exact Or.inl h
  | cons r rs ih =>
    intro acc e h
    unfold collectRows at h
    cases hp : parseSingleRow inc r with
    | none =>
      simp only [hp] at h
      rcases ih h with hacc | ⟨r2, hr2, hp2⟩
      · exact Or.inl hacc
      · exact Or.inr ⟨r2, List.mem_cons_of_mem _ hr2, hp2⟩
    | some a =>
      simp only [hp] at h
      by_cases hstop : maxReached m (acc ++ [a]).length = true
      · rw [if_pos hstop] at h
        rcases List.mem_append.1 h with hacc | hsing
        · exact Or.inl hacc
        · obtain rfl := List.mem_singleton.1 hsing
          exact Or.inr ⟨r, List.mem_cons_self r rs, hp⟩
      · rw [if_neg hstop] at h
        rcases ih h with hacc | ⟨r2, hr2, hp2⟩
        · rcases List.mem_append.1 hacc with hacc2 | hsing
          · exact Or.inl hacc2
          · obtain rfl := List.mem_singleton.1 hsing
            exact Or.inr ⟨r, List.mem_cons_self r rs, hp⟩
        · exact Or.inr ⟨r2, List.mem_cons_of_mem _ hr2, hp2⟩

/-- With a positive maximum `k`, the collection loop returns the accumulator
followed by the first `k - |acc|` successfully parsed rows, in document
order. -/
theorem collectRows_some_eq_take {inc : Bool} {k : Nat} (hk : 0 < k) :
    ∀ (rows : List ChartRow) (acc : List RawEntry), acc.length < k →
      collectRows inc (some k) rows acc =
        acc ++ ((rows.filterMap (parseSingleRow inc)).take (k - acc.length)) := by
  intro rows
  induction rows with
  | nil => intro acc _; simp [collectRows]
  | cons r rs ih =>
    intro acc hacc
    unfold collectRows
    cases hp : parseSingleRow inc r with
    | none =>
      simp only [hp]
      rw [List.filterMap_cons_none hp]
      exact ih acc hacc
    | some a =>
      simp only [hp]
      rw [List.filterMap_cons_some hp]
      have hlen : (acc ++ [a]).length = acc.length + 1 := by simp
      by_cases hstop : k ≤ acc.length + 1
      · have htrue : maxReached (some k) (acc ++ [a]).length = true := by
          simp [maxReached, hlen]
          omega
        rw [if_pos htrue]
        have hone : k - acc.length = 1 := by omega
        simp [hone]
      · have hfalse : ¬maxReached (some k) (acc ++ [a]).length = true := by
          simp [maxReached, hlen]
          omega
        rw [if_neg hfalse]
        rw [ih (acc ++ [a]) (by rw [hlen]; omega)]
        have hn1 : k - (acc ++ [a]).length = k - acc.length - 1 := by
          rw [hlen]
          omega
        obtain ⟨n, hn⟩ : ∃ n, k - acc.length = n + 1 := ⟨k - acc.length - 1, by omega⟩
        rw [hn1, hn]
        simp [List.append_assoc]

deriving instance DecidableEq for Except

/-! ## Theorems: claim C2 (`get_latest` on zero extracted records) -/

/-- C2: evaluating the assembly tail of `BillboardProvider.get_latest` on a
fetch that produced zero records.  The code returns an empty-but-valid
`Chart` (`Except.ok` with `entries = []`); it does not fail with a
"no data returned" fetch error, although the provider's own test
`test_get_latest_no_results_raises` and the spec require that failure. -/
theorem getLatest_zero_records_returns_empty_chart :
    getLatestAssemble "hot-100" ⟨2026, 1, 21⟩ [] "desc" "url" =
      Except.ok
        { metadata := ⟨"billboard", "hot-100", "desc", "url", "single"⟩
          publishedDate := ⟨2026, 1, 21⟩
          entries := []
          chartType := "single" } ∧
      (getLatestAssemble "hot-100" ⟨2026, 1, 21⟩ [] "desc" "url").isOk = true := by
  exact ⟨rfl, rfl⟩

/-! ## Theorems: claim C5 (rows without a digit rank token) -/

/-- No stripped text fragment of the row's label spans is a pure-digit
token. -/
def noDigitTokenRow (row : ChartRow) : Prop :=
  ∀ t ∈ row.spans.flatMap CSpan.texts, isDigitToken (pyStrip t) = false

instance (row : ChartRow) : Decidable (noDigitTokenRow row) := by
  unfold noDigitTokenRow
  infer_instance

/-- C5: a row whose label fragments contain no pure-digit token gets rank 0
and is excluded (`parseSingleRow` returns `none`); the page-level loop just
moves past such a row; and every emitted record has rank at least 1, so
rank 0 never appears in the output. -/
theorem no_digit_rank_row_excluded :
    (∀ row, noDigitTokenRow row → extractRank row = 0) ∧
      (∀ inc row, noDigitTokenRow row → parseSingleRow inc row = none) ∧
      (∀ inc m row rows acc, parseSingleRow inc row = none →
        collectRows inc m (row :: rows) acc = collectRows inc m rows acc) ∧
      (∀ inc m rows e, e ∈ spiderParseEntries inc m rows → 1 ≤ e.rank) := by
  have hrank : ∀ row, noDigitTokenRow row → extractRank row = 0 := by
    intro row hrow
    unfold extractRank
    rw [List.find?_eq_none.2]
    intro t ht
    simp [hrow t ht]
  refine ⟨hrank, ?_, ?_, ?_⟩
  · intro inc row hrow
    rw [parseSingleRow, if_pos (hrank row hrow)]
  · intro inc m row rows acc h
    conv_lhs => rw [collectRows.eq_def]
    simp only [h]
  · intro inc m rows e he
    unfold spiderParseEntries at he
    rw [List.mem_insertionSort] at he
    rcases mem_collectRows he with hacc | ⟨r, _, hp⟩
    · simp at hacc
    · have := (parseSingleRow_inv hp).1
      have := (parseSingleRow_inv hp).2.1
      omega

/-- C5 witness: the concrete "NEW"-marker row has rank 0 and is excluded. -/
theorem no_digit_rank_row_excluded_witness :
    extractRank rowNoRank = 0 ∧ parseSingleRow true rowNoRank = none :=
  ⟨no_digit_rank_row_excluded.1 rowNoRank (by decide),
   no_digit_rank_row_excluded.2.1 true rowNoRank (by decide)⟩

/-! ## Theorems: claim C7 (image field with images disabled) -/

/-- C7: with `include_images = false` the image field of every produced
record is the empty string, independently of the row's markup. -/
theorem image_empty_when_images_disabled :
    (∀ row e, parseSingleRow false row = some e → e.image = "") ∧
      (∀ row row2 e e2, parseSingleRow false row = some e →
        parseSingleRow false row2 = some e2 → e.image = e2.image) := by
  have h1 : ∀ row e, parseSingleRow false row = some e → e.image = "" := by
    intro row e h
    have := (parseSingleRow_inv h).2.2.1
    simpa using this
  exact ⟨h1, fun row row2 e e2 h h2 => by rw [h1 row e h, h1 row2 e2 h2]⟩

/-- C7 witness: the demo row parses with images disabled and its image field
is empty. -/
theorem image_empty_when_images_disabled_witness :
    demoEntryA.image = "" :=
  image_empty_when_images_disabled.1 demoRowA demoEntryA (by decide)

/-! ## Theorems: claim C8 (artist splitting) -/

/-- C8: the resolved artist string is split on "&" when present, else on ","
when present, else taken whole; pieces are stripped; the record's primary
artist is the first element of the list; and the concrete input
"Artist X & Artist Y" yields ["Artist X", "Artist Y"] with primary artist
"Artist X". -/
theorem artist_splitting_spec :
    (∀ a, strContainsSub a "&" = true →
      splitArtists a = (pySplitStr '&' a).map pyStrip) ∧
      (∀ a, strContainsSub a "&" = false → strContainsSub a "," = true →
        splitArtists a = (pySplitStr ',' a).map pyStrip) ∧
      (∀ a, strContainsSub a "&" = false → strContainsSub a "," = false →
        splitArtists a = [a]) ∧
      splitArtists "Artist X & Artist Y" = ["Artist X", "Artist Y"] ∧
      (splitArtists "Artist X & Artist Y").headD "" = "Artist X" ∧
      (∀ inc row e, parseSingleRow inc row = some e →
        e.artists = splitArtists (extractArtist row (extractTitle row) false) ∧
          e.artist = e.artists.headD (extractArtist row (extractTitle row) false)) := by
  refine ⟨?_, ?_, ?_, by decide, by decide, ?_⟩
  · intro a h
    simp [splitArtists, h]
  · intro a h h2
    simp [splitArtists, h, h2]
  · intro a h h2
    simp [splitArtists, h, h2]
  · intro inc row e h
    obtain ⟨-, -, -, ha, hp⟩ := parseSingleRow_inv h
    exact ⟨ha, by rw [hp, ha]⟩

/-- C8 witness: applied to the demo row, whose artist is a single name. -/
theorem artist_splitting_spec_witness :
    demoEntryA.artists =
      splitArtists (extractArtist demoRowA (extractTitle demoRowA) false) ∧
      demoEntryA.artist =
        demoEntryA.artists.headD (extractArtist demoRowA (extractTitle demoRowA) false) :=
  artist_splitting_spec.2.2.2.2.2 true demoRowA demoEntryA (by decide)

/-! ## Theorems: claim C4 (sorted output, maximum-entries trim) -/

/-- C4: the spider's entry list is sorted so that rank is monotonically
non-decreasing, and with a positive maximum `k` it has at most `k` entries;
the assembly pipeline's chart likewise has rank-sorted entries. -/
theorem entries_sorted_and_trimmed :
    (∀ inc maxE rows,
        (spiderParseEntries inc maxE rows).Pairwise (fun a b => a.rank ≤ b.rank) ∧
          ∀ k, maxE = some k → 0 < k →
            (spiderParseEntries inc maxE rows).length ≤ k) ∧
      (∀ item chart, processItem item = .ok chart →
        chart.entries.Pairwise (fun a b => a.rank ≤ b.rank)) := by
  constructor
  · intro inc maxE rows
    constructor
    · exact List.sorted_insertionSort rawRankLe _
    · rintro k rfl hk
      unfold spiderParseEntries
      rw [List.length_insertionSort]
      rw [collectRows_some_eq_take hk rows [] (by simpa using hk)]
      simp [List.length_take]
  · intro item chart h
    unfold processItem at h
    cases hm : item.entries.mapM convertRawEntry with
    | error err =>
      simp only [hm] at h
      exact absurd h (by simp)
    | ok es =>
      simp only [hm] at h
      obtain rfl := Except.ok.inj h
      exact List.sorted_insertionSort entryRankLe es

/-- C4 witness: on the demo page with maximum 1, at most one entry remains
and the output is rank-sorted. -/
theorem entries_sorted_and_trimmed_witness :
    (spiderParseEntries true (some 1) demoRows).length ≤ 1 :=
  (entries_sorted_and_trimmed.1 true (some 1) demoRows).2 1 rfl (by decide)

/-! ## Theorems: claim C10 (the maximum cut happens before sorting) -/

/-- C10: with a positive maximum `k`, the extraction loop keeps exactly the
first `k` parseable rows in document order and only then sorts by rank; on
the demo page (document order rank 5 then rank 3) with `k = 1` the result is
the rank-5 entry although a rank-3 row exists, so the result is not the set
of `k` lowest-ranked entries. -/
theorem max_entries_first_k_then_sort :
    (∀ inc k rows, 0 < k →
        spiderParseEntries inc (some k) rows =
          List.insertionSort rawRankLe
            ((rows.filterMap (parseSingleRow inc)).take k)) ∧
      (spiderParseEntries true (some 1) demoRows).map RawEntry.rank = [5] ∧
      (demoRows.filterMap (parseSingleRow true)).map RawEntry.rank = [5, 3] := by
  refine ⟨?_, by decide, by decide⟩
  intro inc k rows hk
  unfold spiderParseEntries
  rw [collectRows_some_eq_take hk rows [] (by simpa using hk)]
  simp

/-- C10 witness: the general equation applied to the demo page with
`k = 1`. -/
theorem max_entries_first_k_then_sort_witness :
    spiderParseEntries true (some 1) demoRows =
      List.insertionSort rawRankLe
        ((demoRows.filterMap (parseSingleRow true)).take 1) :=
  max_entries_first_k_then_sort.1 true 1 demoRows (by decide)

/-! ## Theorems: claim C3 (unknown chart identifiers) -/

/-- C3: an identifier that misses the canonical table, the hyphen-normalized
retry and the alias map resolves, with fallback enabled, to "hot-100" with a
warning; with fallback disabled it fails with an error whose message names
the input and lists the valid identifiers. -/
theorem unknown_chart_fallback_or_error (name : String)
    (h1 : validCharts.contains (pyStrip (pyLower name)) = false)
    (h2 : validCharts.contains
        (pyReplaceChar '_' '-' (pyReplaceChar ' ' '-' (pyStrip (pyLower name)))) = false)
    (h3 : aliasMap.lookup (pyStrip (pyLower name)) = none) :
    normalizeChartName true name = ([fallbackWarning name], .ok "hot-100") ∧
      normalizeChartName false name = ([], .error (unknownChartMsg name)) ∧
      (∃ pre post, unknownChartMsg name = pre ++ (name ++ post)) ∧
      (∀ cid ∈ validCharts, strContainsSub availableRepr cid = true) := by
  have m1 : pyStrip (pyLower name) ∉ validCharts := by simpa using h1
  have m2 : pyReplaceChar '_' '-' (pyReplaceChar ' ' '-' (pyStrip (pyLower name))) ∉
      validCharts := by simpa using h2
  refine ⟨?_, ?_, ⟨"Unknown chart: ", ". Available: " ++ availableRepr, ?_⟩, by decide⟩
  · simp [normalizeChartName, m1, m2, h3]
  · simp [normalizeChartName, m1, m2, h3]
  · simp [unknownChartMsg, String.append_assoc]

/-- C3 witness: the concrete unknown identifier "bogus" without fallback. -/
theorem unknown_chart_fallback_or_error_witness :
    normalizeChartName false "bogus" = ([], .error (unknownChartMsg "bogus")) :=
  (unknown_chart_fallback_or_error "bogus" (by decide) (by decide) (by decide)).2.1

/-! ## Theorems: claim C6 (variants of canonical identifiers) -/

/-- Every key of the canonical table is already lowercase, stripped, and free
of spaces and underscores. -/
theorem validChart_canonical {c : String} (hc : validCharts.contains c = true) :
    pyStrip (pyLower c) = c ∧
      pyReplaceChar '_' '-' (pyReplaceChar ' ' '-' c) = c := by
  have hmem : c ∈ validCharts := by simpa using hc
  fin_cases hmem <;> exact ⟨by decide, by decide⟩

/-- C6: any case variant, and any variant with spaces or underscores in
place of hyphens, of a canonical chart identifier resolves to the same
canonical identifier as the identifier itself. -/
theorem canonical_variant_resolves_same (fb : Bool) (c v : String)
    (hc : validCharts.contains c = true)
    (hv : pyReplaceChar '_' '-' (pyReplaceChar ' ' '-' (pyStrip (pyLower v))) = c) :
    (normalizeChartName fb v).2 = .ok c ∧ (normalizeChartName fb c).2 = .ok c := by
  obtain ⟨hcs, -⟩ := validChart_canonical hc
  have mc : c ∈ validCharts := by simpa using hc
  constructor
  · unfold normalizeChartName
    by_cases hmem : validCharts.contains (pyStrip (pyLower v)) = true
    · obtain ⟨-, hrep⟩ := validChart_canonical hmem
      rw [hrep] at hv
      have mv : pyStrip (pyLower v) ∈ validCharts := by simpa using hmem
      simp [mv, hv, mc]
    · have mv2 : pyStrip (pyLower v) ∉ validCharts := by
        simpa using hmem
      simp [mv2, hv, mc]
  · simp [normalizeChartName, hcs, mc]

/-- C6 witness: the underscore-and-case variant "HOT_100" resolves like
"hot-100". -/
theorem canonical_variant_resolves_same_witness :
    (normalizeChartName true "HOT_100").2 = .ok "hot-100" :=
  (canonical_variant_resolves_same true "hot-100" "HOT_100" (by decide) (by decide)).1

/-! ## Theorems: claim C9 (ISO date round trip) -/

/-- A padded digit character is a digit. -/
theorem digitChar_isDigit {k : Nat} (h : k < 10) : (digitChar k).isDigit = true := by
  interval_cases k <;> decide

/-- Numeric value of a padded digit character. -/
theorem digitChar_toNat {k : Nat} (h : k < 10) : (digitChar k).toNat = 48 + k := by
  interval_cases k <;> decide

/-- Formatting a valid date with `isoformat` and parsing the string back
yields the same date. -/
theorem pyDate_iso_roundtrip (dt : PyDate) (h : dt.valid) :
    pyDateFromIsoformat dt.isoformat = some dt := by
  obtain ⟨y, m, d⟩ := dt
  simp only [PyDate.valid] at h
  obtain ⟨hy1, hy2, hm1, hm2, hd1, hd2⟩ := h
  have b1 : y / 1000 % 10 < 10 := Nat.mod_lt _ (by omega)
  have b2 : y / 100 % 10 < 10 := Nat.mod_lt _ (by omega)
  have b3 : y / 10 % 10 < 10 := Nat.mod_lt _ (by omega)
  have b4 : y % 10 < 10 := Nat.mod_lt _ (by omega)
  have b5 : m / 10 % 10 < 10 := Nat.mod_lt _ (by omega)
  have b6 : m % 10 < 10 := Nat.mod_lt _ (by omega)
  have b7 : d / 10 % 10 < 10 := Nat.mod_lt _ (by omega)
  have b8 : d % 10 < 10 := Nat.mod_lt _ (by omega)
  have e1 : natOfDigits [digitChar (y / 1000 % 10), digitChar (y / 100 % 10),
      digitChar (y / 10 % 10), digitChar (y % 10)] = y := by
    simp [natOfDigits, digitChar_toNat b1, digitChar_toNat b2,
      digitChar_toNat b3, digitChar_toNat b4]
    omega
  have e2 : natOfDigits [digitChar (m / 10 % 10), digitChar (m % 10)] = m := by
    simp [natOfDigits, digitChar_toNat b5, digitChar_toNat b6]
    omega
  have e3 : natOfDigits [digitChar (d / 10 % 10), digitChar (d % 10)] = d := by
    simp [natOfDigits, digitChar_toNat b7, digitChar_toNat b8]
    omega
  unfold PyDate.isoformat pad4 pad2
  simp only [List.cons_append, List.nil_append]
  unfold pyDateFromIsoformat
  simp only [digitChar_isDigit b1, digitChar_isDigit b2, digitChar_isDigit b3,
    digitChar_isDigit b4, digitChar_isDigit b5, digitChar_isDigit b6,
    digitChar_isDigit b7, digitChar_isDigit b8, e1, e2, e3]
  simp [hy1, hy2, hm1, hm2, hd1, hd2]

/-- C9: serializing a chart with `to_dict` turns the publication date into
an ISO-8601 string, and parsing that string back as an ISO date recovers the
same calendar date. -/
theorem toDict_publishedDate_roundtrip (c : Chart) (h : c.publishedDate.valid) :
    pyDateFromIsoformat (Chart.toDict c).publishedDate = some c.publishedDate :=
  pyDate_iso_roundtrip c.publishedDate h

/-- A concrete chart for the C9 witness. -/
def sampleChart : Chart :=
  ⟨⟨"billboard", "Billboard Hot 100", "Test description",
    "/charts/hot-100", "single"⟩, ⟨2026, 1, 21⟩, [], "single"⟩

/-- C9 witness: the round trip on a concrete chart dated 2026-01-21. -/
theorem toDict_publishedDate_roundtrip_witness :
    pyDateFromIsoformat (Chart.toDict sampleChart).publishedDate =
      some sampleChart.publishedDate :=
  toDict_publishedDate_roundtrip sampleChart (by decide)
